import Mathlib

/-!
Verification development for the OpenPhotogrammetryToolkit core: a shallow
embedding of `src/Widgets/opt_widgets.py` (the `_FilePathObject` registry,
primary/secondary selection state machine and reconcile pass of
`FilePathListWidget`), of `src/OpenPhotogrammetryToolkit/opt_helper_funcs.py`
(`get_class_name`) and of `src/main.py` (`OPTMainWindow.instantiate_plugins`
and `OPTMainWindow.start_plugins`).

Modelling conventions:
  * Python object identity (`is`, and default `==` on Qt objects, which is
    identity) is modelled by a numeric identity field (`fid` on file path
    objects, `pid` on plugin instances); two objects are "the same" iff the
    identity field coincides.
  * Paths are plain strings.  The model feeds the code absolute, normalized
    POSIX paths, on which `os.path.abspath`/`os.path.normpath` and the
    `replace(r"\\", "/")` of `_FilePathObject.__init__` are the identity;
    `os.path.basename` is the text after the last slash and `os.path.join`
    inserts a slash.
  * The file system visible through `os.path.isfile`, `os.path.islink`,
    `os.path.realpath` and `os.listdir` is an explicit parameter.
  * Qt signal emissions are collected into an explicit event list; an
    uncaught Python exception is an explicit error value carrying the state
    and the events emitted before the raise.  Style-sheet updates
    (`change_style_*`) are presentation only and carry no model state, but
    the call `fpo.change_style_primary()` on `fpo = None` is where
    `set_primary_selection` raises `AttributeError`, and the model raises at
    the same program point.
  * Python `dict` (`curr_file_paths`) is an insertion-ordered association
    list; every insertion in the source uses `fpo.label` as the key, so the
    registry is kept as a list of file path objects keyed by their `label`
    field.  Python `set` iteration order is unspecified; the model fixes the
    scan order of `update_file`, which determines only the processing order
    inside one reconcile pass.
-/

namespace OPT

/-- Uncaught Python exceptions that the modelled code can raise. -/
inductive PyErr where
  | attributeError
  | keyError
  | fileExistsError
  | startError
deriving DecidableEq, Repr

/-- The file system as seen by `opt_widgets.py`: the names listed in the
watched directory and the `os.path` predicates used by the code. -/
structure FileSystem where
  dirFiles : List String
  isLink : String → Bool
  realpath : String → String
  isfile : String → Bool

/-- The characters after the last slash: `acc` collects the current
component and is reset at every `/`. -/
def lastComponent (acc : List Char) : List Char → List Char
  | [] => acc
  | c :: rest => if c = '/' then lastComponent [] rest else lastComponent (acc ++ [c]) rest

/-- Model of `os.path.basename` on POSIX-style paths: the text after the
last slash. -/
def basename (p : String) : String :=
  String.mk (lastComponent [] p.toList)

/-- Model of `os.path.join` on POSIX-style paths. -/
def joinPath (dir name : String) : String :=
  dir ++ "/" ++ name

/-- The `IMAGE_EXTENSIONS` tuple of `opt_widgets.py`. -/
def IMAGE_EXTENSIONS : List String :=
  [".jpg", ".jpeg", ".png", ".gif", ".bmp", ".tiff", ".tif", ".ico"]

/-- The filter `any(file_name.lower().endswith(ext) for ext in
IMAGE_EXTENSIONS)`: the lower-cased name ends with the extension. -/
def hasImageExt (name : String) : Bool :=
  IMAGE_EXTENSIONS.any (fun ext =>
    ext.toList.reverse.isPrefixOf ((name.toList.map Char.toLower).reverse))

/-- Embedding of `_FilePathObject`: one tracked file.  `fid` models Python object
identity, `file_path` and `label` are the attributes set in `__init__`. -/
structure FPO where
  fid : Nat
  file_path : String
  label : String
deriving DecidableEq, Repr

/-- Embedding of `_FilePathObject.__init__`: resolves a symlink to its real path for the
`file_path` attribute, raises `FileExistsError` when the (normalized) path is
not a file, and takes the `label` from the basename of the given path (not of
the resolved one). -/
def FPO.make (fs : FileSystem) (fid : Nat) (file_path : String) : Except PyErr FPO :=
  let resolved := if fs.isLink file_path then fs.realpath file_path else file_path
  if fs.isfile file_path then
    Except.ok { fid := fid, file_path := resolved, label := basename file_path }
  else
    Except.error PyErr.fileExistsError

/-- The four Qt signals of `FilePathListWidget` that carry a path (the
`watcherInitialized` list signal is not needed by any claim). -/
inductive Event where
  | primarySelectionChanged (path : String)
  | secondarySelectionChanged (path : String)
  | fileAdded (path : String)
  | fileRemoved (path : String)
deriving DecidableEq, Repr

/-- The mutable state of `FilePathListWidget`: the label-keyed registry
`curr_file_paths` and the two selection slots.  `nextId` is a model artifact
producing fresh object identities for newly constructed `_FilePathObject`s. -/
structure Widget where
  curr_file_paths : List FPO
  primary_sel : Option FPO
  secondary_sel : Option FPO
  nextId : Nat
deriving DecidableEq, Repr

/-- A freshly constructed widget (`__init__`): both slots unset.  The
registry contents are a parameter so that statements range over any registry
population. -/
def initWidget (reg : List FPO) : Widget :=
  { curr_file_paths := reg, primary_sel := none, secondary_sel := none, nextId := reg.length }

/-- Outcome of running one widget operation: final state, signals emitted (in
order), and the uncaught exception if the operation raised. -/
structure PyResult where
  state : Widget
  events : List Event
  error : Option PyErr
deriving DecidableEq, Repr

/-- Python `is` between an optional object and an optional object: `None is
None` is true, two objects are identical iff their identities coincide. -/
def sameRef : Option FPO → Option FPO → Bool
  | none, none => true
  | some a, some b => a.fid == b.fid
  | _, _ => false

/-- Lookup in the `curr_file_paths` dict (keys are the stored labels). -/
def regLookup (reg : List FPO) (label : String) : Option FPO :=
  reg.find? (fun f => f.label == label)

/-- Embedding of `FilePathListWidget.get_fpo_from_current`: normalizes a file path to its
basename, then looks the label up; the `KeyError` is caught and `None` is
returned (after a logged warning). -/
def get_fpo_from_current (fs : FileSystem) (w : Widget) (path : String) : Option FPO :=
  let path := if fs.isfile path then basename path else path
  regLookup w.curr_file_paths path

/-- The clearing of the opposite slot performed by `set_primary_selection`
before it installs the new primary: `if selection is self._secondary_sel:
self._secondary_sel = None`. -/
def clearSecondaryIfSame (w : Widget) (fpo : Option FPO) : Widget :=
  if sameRef fpo w.secondary_sel then { w with secondary_sel := none } else w

/-- The clearing of the opposite slot performed by `set_secondary_selection`:
`if selection is self._primary_sel: self._primary_sel = None`. -/
def clearPrimaryIfSame (w : Widget) (fpo : Option FPO) : Widget :=
  if sameRef fpo w.primary_sel then { w with primary_sel := none } else w

/-- Embedding of `FilePathListWidget.set_primary_selection` on a `_FilePathObject`
argument (the early-return branch of the source): no-op when the selection
already is the primary, otherwise evict it from the secondary slot if held
there, install it as primary, and emit one `primarySelectionChanged`. -/
def set_primary_selection_fpo (w : Widget) (selection : FPO) (broadcast_change : Bool) : PyResult :=
  if sameRef (some selection) w.primary_sel then
    { state := w, events := [], error := none }
  else
    { state := { clearSecondaryIfSame w (some selection) with primary_sel := some selection },
      events := if broadcast_change then [Event.primarySelectionChanged selection.file_path] else [],
      error := none }

/-- Embedding of `FilePathListWidget.set_primary_selection` on a string argument: the path
is reduced to its basename when it names a file, resolved through
`get_fpo_from_current`, and then the same slot logic runs on the result; when
resolution produced `None` and the identity test against the current primary
falls through (i.e. a primary is set), the call `fpo.change_style_primary()`
raises an uncaught `AttributeError` after the (no-op) secondary clearing. -/
def set_primary_selection_str (fs : FileSystem) (w : Widget) (selection : String)
    (broadcast_change : Bool) : PyResult :=
  if sameRef (get_fpo_from_current fs w (if fs.isfile selection then basename selection else selection))
      w.primary_sel then
    { state := w, events := [], error := none }
  else
    match get_fpo_from_current fs w (if fs.isfile selection then basename selection else selection) with
    | none =>
        { state := clearSecondaryIfSame w none, events := [], error := some PyErr.attributeError }
    | some f =>
        { state := { clearSecondaryIfSame w (some f) with primary_sel := some f },
          events := if broadcast_change then [Event.primarySelectionChanged f.file_path] else [],
          error := none }

/-- Embedding of `FilePathListWidget.set_secondary_selection` on a `_FilePathObject`
argument (mirror image of the primary setter). -/
def set_secondary_selection_fpo (w : Widget) (selection : FPO) (broadcast_change : Bool) : PyResult :=
  if sameRef (some selection) w.secondary_sel then
    { state := w, events := [], error := none }
  else
    { state := { clearPrimaryIfSame w (some selection) with secondary_sel := some selection },
      events := if broadcast_change then [Event.secondarySelectionChanged selection.file_path] else [],
      error := none }

/-- Embedding of `FilePathListWidget.set_secondary_selection` on a string argument. -/
def set_secondary_selection_str (fs : FileSystem) (w : Widget) (selection : String)
    (broadcast_change : Bool) : PyResult :=
  if sameRef (get_fpo_from_current fs w (if fs.isfile selection then basename selection else selection))
      w.secondary_sel then
    { state := w, events := [], error := none }
  else
    match get_fpo_from_current fs w (if fs.isfile selection then basename selection else selection) with
    | none =>
        { state := clearPrimaryIfSame w none, events := [], error := some PyErr.attributeError }
    | some f =>
        { state := { clearPrimaryIfSame w (some f) with secondary_sel := some f },
          events := if broadcast_change then [Event.secondarySelectionChanged f.file_path] else [],
          error := none }

/-- Embedding of `FilePathListWidget._add_fpo_to_view`: inserts the object under its label
key only when the label is not yet a key of `curr_file_paths`; otherwise the
call does nothing (the existing entry is kept and the new object dropped). -/
def add_fpo_to_view (w : Widget) (fpo : FPO) : Widget :=
  if (regLookup w.curr_file_paths fpo.label).isSome then w
  else { w with curr_file_paths := w.curr_file_paths ++ [fpo] }

/-- The unselect step of `_remove_fpo_from_view`: clear the primary slot if
the removed object is the primary (Qt objects compare by identity), else
(`elif`) clear the secondary slot if it is the secondary. -/
def unselectIfSelected (w : Widget) (fpo : FPO) : Widget :=
  if sameRef (some fpo) w.primary_sel then { w with primary_sel := none }
  else if sameRef (some fpo) w.secondary_sel then { w with secondary_sel := none }
  else w

/-- Embedding of `FilePathListWidget._remove_fpo_from_view`: when the label is a key,
unselect the object if selected, then pop the label from the registry.  No
selection-changed signal is emitted. -/
def remove_fpo_from_view (w : Widget) (fpo : FPO) : Widget :=
  if (regLookup w.curr_file_paths fpo.label).isSome then
    { unselectIfSelected w fpo with
      curr_file_paths :=
        (unselectIfSelected w fpo).curr_file_paths.eraseP (fun f => f.label == fpo.label) }
  else w

/-- Embedding of `FilePathListWidget._file_added`: constructs a `_FilePathObject` for the
path (which may raise `FileExistsError`), adds it to the view, and emits
`fileAdded` with the raw path. -/
def file_added (fs : FileSystem) (w : Widget) (file : String) : PyResult :=
  match FPO.make fs w.nextId file with
  | Except.error e => { state := w, events := [], error := some e }
  | Except.ok fpo =>
      { state := add_fpo_to_view { w with nextId := w.nextId + 1 } fpo,
        events := [Event.fileAdded file], error := none }

/-- Embedding of `FilePathListWidget._file_removed`: looks the basename of the path up in
`curr_file_paths` — an uncaught `KeyError` if absent — removes the object
from the view and emits `fileRemoved` with the raw path. -/
def file_removed (w : Widget) (file : String) : PyResult :=
  match regLookup w.curr_file_paths (basename file) with
  | none => { state := w, events := [], error := some PyErr.keyError }
  | some fpo =>
      { state := remove_fpo_from_view w fpo,
        events := [Event.fileRemoved file], error := none }

/-- Keep the first occurrence of every string (Python `set` built by
iteration; the model fixes the iteration order as first-occurrence order). -/
def dedupFirst (seen : List String) : List String → List String
  | [] => []
  | x :: xs => if seen.contains x then dedupFirst seen xs else x :: dedupFirst (x :: seen) xs

/-- The `for a in added: self._file_added(a)` loop; an uncaught exception
stops the loop. -/
def runAdds (fs : FileSystem) : Widget → List String → Widget × List Event × Option PyErr
  | w, [] => (w, [], none)
  | w, f :: rest =>
    match (file_added fs w f).error with
    | some e => ((file_added fs w f).state, (file_added fs w f).events, some e)
    | none =>
        ((runAdds fs (file_added fs w f).state rest).1,
         (file_added fs w f).events ++ (runAdds fs (file_added fs w f).state rest).2.1,
         (runAdds fs (file_added fs w f).state rest).2.2)

/-- The `for r in removed: self._file_removed(r)` loop; an uncaught exception
stops the loop. -/
def runRemoves : Widget → List String → Widget × List Event × Option PyErr
  | w, [] => (w, [], none)
  | w, f :: rest =>
    match (file_removed w f).error with
    | some e => ((file_removed w f).state, (file_removed w f).events, some e)
    | none =>
        ((runRemoves (file_removed w f).state rest).1,
         (file_removed w f).events ++ (runRemoves (file_removed w f).state rest).2.1,
         (runRemoves (file_removed w f).state rest).2.2)

/-- The scan of `update_file`: every name in the directory with an image
extension, joined with the directory path.  No symlink resolution happens
here. -/
def scanFiles (fs : FileSystem) (dir_path : String) : List String :=
  (fs.dirFiles.filter hasImageExt).map (joinPath dir_path)

/-- The registry side of the diff: `set(f.file_path for f in
self.curr_file_paths.values())` — the entries' (symlink-resolved) paths. -/
def registryPaths (w : Widget) : List String :=
  dedupFirst [] (w.curr_file_paths.map (fun f => f.file_path))

/-- Embedding of `FilePathListWidget.update_file`: re-scans the directory, computes
`added = files − fpos` and `removed = fpos − files` as Python set
differences, then processes all additions and afterwards all removals. -/
def update_file (fs : FileSystem) (w : Widget) (dir_path : String) : PyResult :=
  match runAdds fs w ((scanFiles fs dir_path).filter
      (fun f => !(registryPaths w).contains f)) with
  | (w1, evs1, some e) => { state := w1, events := evs1, error := some e }
  | (w1, evs1, none) =>
      match runRemoves w1 ((registryPaths w).filter
          (fun f => !(scanFiles fs dir_path).contains f)) with
      | (w2, evs2, err2) => { state := w2, events := evs1 ++ evs2, error := err2 }

/-- One call of the selection API: either setter, with either argument kind,
with an arbitrary `broadcast_change` flag. -/
inductive SelOp where
  | primaryFpo (selection : FPO) (broadcast_change : Bool)
  | primaryStr (selection : String) (broadcast_change : Bool)
  | secondaryFpo (selection : FPO) (broadcast_change : Bool)
  | secondaryStr (selection : String) (broadcast_change : Bool)

/-- Dispatch one selection call. -/
def applySelOp (fs : FileSystem) (w : Widget) : SelOp → PyResult
  | SelOp.primaryFpo s b => set_primary_selection_fpo w s b
  | SelOp.primaryStr s b => set_primary_selection_str fs w s b
  | SelOp.secondaryFpo s b => set_secondary_selection_fpo w s b
  | SelOp.secondaryStr s b => set_secondary_selection_str fs w s b

/-- Run a sequence of selection calls; an uncaught exception aborts the
sequence at the state it left behind. -/
def applySelOps (fs : FileSystem) : Widget → List SelOp → Widget
  | w, [] => w
  | w, op :: rest =>
    match (applySelOp fs w op).error with
    | some _ => (applySelOp fs w op).state
    | none => applySelOps fs (applySelOp fs w op).state rest

/-- Predicate that `getPrimary()` and `getSecondary()` do not return the same entry: false
only when both slots are set and reference the identical object. -/
def selDistinct (w : Widget) : Bool :=
  match w.primary_sel, w.secondary_sel with
  | some f, some g => f.fid != g.fid
  | _, _ => true

/-- A loaded plugin module as `instantiate_plugins` sees it: `mid` is the
identity the constructed instance will have, `fileName` the base name of the
module file (without extension), `attrs` the names the module defines,
`identifier` the identifier the plugin gives its instance, `constructOk`
whether the constructor call succeeds and `startOk` whether the instance's
`start()` returns normally. -/
structure PluginModule where
  mid : Nat
  fileName : String
  attrs : List String
  identifier : String
  constructOk : Bool
  startOk : Bool
deriving DecidableEq, Repr

/-- Embedding of `opt_helper_funcs.get_class_name`: the name of the construct named after
the module file; raises `AttributeError` when the module has no attribute of
that name. -/
def get_class_name (m : PluginModule) : Except PyErr String :=
  if m.attrs.contains m.fileName then Except.ok m.fileName
  else Except.error PyErr.attributeError

/-- A constructed plugin instance.  `pid` models Python object identity,
`plugins` is the sibling list (`None` until `start_plugins` assigns it,
modelled as references — the `pid`s of the listed instances), `started`
records that `start()` returned normally, and `startOk` carries the
instance's `start()` behavior. -/
structure PluginInstance where
  pid : Nat
  identifier : String
  plugins : Option (List Nat)
  started : Bool
  startOk : Bool
deriving DecidableEq, Repr

/-- Embedding of the constructor call `PluginClass(parent=self.main_window)`: the fresh instance, with
`self.plugins = None` as set by the plugin base constructors. -/
def mkInstance (m : PluginModule) : PluginInstance :=
  { pid := m.mid, identifier := m.identifier, plugins := none, started := false,
    startOk := m.startOk }

/-- Embedding of `OPTMainWindow.instantiate_plugins`: for each module, `get_class_name` is
called OUTSIDE the try block — its `AttributeError` is uncaught and aborts
the whole loop — while a constructor failure inside the try block is caught
and only skips that candidate.  Returns the accumulated `loaded_plugins`
and the uncaught exception, if any. -/
def instantiate_plugins : List PluginModule → List PluginInstance × Option PyErr
  | [] => ([], none)
  | m :: rest =>
    match get_class_name m with
    | Except.error e => ([], some e)
    | Except.ok _ =>
        if m.constructOk then
          ((mkInstance m) :: (instantiate_plugins rest).1, (instantiate_plugins rest).2)
        else
          instantiate_plugins rest

/-- The sibling list `[p for p in self.loaded_plugins if p is not plugin]`:
all other instances of the full loaded list, compared by object identity. -/
def siblings (loaded : List PluginInstance) (p : PluginInstance) : List Nat :=
  (loaded.filter (fun q => q.pid != p.pid)).map (fun q => q.pid)

/-- The observable steps of `start_plugins`: the assignment
`plugin.plugins = [...]` and the call `plugin.start()`. -/
inductive StartEv where
  | assign (pid : Nat) (sibs : List Nat)
  | startCall (pid : Nat)
deriving DecidableEq, Repr

/-- The body of `OPTMainWindow.start_plugins`: iterate over the loaded list;
for each instance assign its sibling list and immediately call its
`start()`.  There is no exception handling: a raising `start()` aborts the
loop, leaving the remaining instances untouched (sibling list unassigned,
never started).  Returns the instances (mutated in place), the step trace,
and the uncaught exception, if any. -/
def start_loop (loaded : List PluginInstance) : List PluginInstance →
    List PluginInstance × List StartEv × Option PyErr
  | [] => ([], [], none)
  | p :: rest =>
    if p.startOk then
      ({ p with plugins := some (siblings loaded p), started := true } ::
         (start_loop loaded rest).1,
       StartEv.assign p.pid (siblings loaded p) :: StartEv.startCall p.pid ::
         (start_loop loaded rest).2.1,
       (start_loop loaded rest).2.2)
    else
      ({ p with plugins := some (siblings loaded p) } :: rest,
       [StartEv.assign p.pid (siblings loaded p), StartEv.startCall p.pid],
       some PyErr.startError)

/-- Embedding of `OPTMainWindow.start_plugins` on the loaded list. -/
def start_plugins (loaded : List PluginInstance) :
    List PluginInstance × List StartEv × Option PyErr :=
  start_loop loaded loaded

/-- The per-instance result of a completed startup pass: sibling list
assigned, `start()` returned. -/
def startedInstance (loaded : List PluginInstance) (p : PluginInstance) : PluginInstance :=
  { p with plugins := some (siblings loaded p), started := true }

/-- The trace a completed startup pass leaves: for each instance in order,
its sibling-list assignment immediately followed by its own start call. -/
def interleavedTrace (loaded : List PluginInstance) (l : List PluginInstance) : List StartEv :=
  l.flatMap (fun p => [StartEv.assign p.pid (siblings loaded p), StartEv.startCall p.pid])

/-- The timing property C2 asserts of the trace: once some `start()` has been
called, no further sibling-list assignment happens (i.e. every assignment
precedes every start call). -/
def noAssignAfterStart : List StartEv → Bool
  | [] => true
  | StartEv.assign _ _ :: rest => noAssignAfterStart rest
  | StartEv.startCall _ :: rest => rest.all (fun e => match e with
      | StartEv.assign _ _ => false
      | StartEv.startCall _ => true)

/-! Concrete instances used to evaluate the model on explicit inputs. -/

/-- A registry entry for the plain file `/watched/a.jpg`. -/
def fpoA : FPO := { fid := 0, file_path := "/watched/a.jpg", label := "a.jpg" }

/-- A widget whose registry holds `fpoA`, with `fpoA` as current secondary. -/
def wSecA : Widget :=
  { curr_file_paths := [fpoA], primary_sel := none, secondary_sel := some fpoA, nextId := 1 }

/-- A widget whose registry holds `fpoA`, with `fpoA` as current primary. -/
def wPrimA : Widget :=
  { curr_file_paths := [fpoA], primary_sel := some fpoA, secondary_sel := none, nextId := 1 }

/-- A widget whose registry holds `fpoA`, with no selection. -/
def wNoSel : Widget :=
  { curr_file_paths := [fpoA], primary_sel := none, secondary_sel := none, nextId := 1 }

/-- A file system with the single plain file `/watched/a.jpg`. -/
def fsPlain : FileSystem :=
  { dirFiles := ["a.jpg"], isLink := fun _ => false, realpath := fun p => p,
    isfile := fun p => p == "/watched/a.jpg" }

/-- An empty widget. -/
def wEmpty : Widget :=
  { curr_file_paths := [], primary_sel := none, secondary_sel := none, nextId := 0 }

/-- Entry for `/p/a.jpg` — label `a.jpg`. -/
def fpoDup1 : FPO := { fid := 1, file_path := "/p/a.jpg", label := "a.jpg" }

/-- A different entry whose label collides with `fpoDup1`. -/
def fpoDup2 : FPO := { fid := 2, file_path := "/q/a.jpg", label := "a.jpg" }

/-- A widget whose registry holds the single entry `fpoDup1`. -/
def wDup1 : Widget :=
  { curr_file_paths := [fpoDup1], primary_sel := none, secondary_sel := none, nextId := 2 }

/-- A file system in which the watched directory `/d` contains exactly the
symlink `link.jpg` whose target is the (existing) file `/e/target.jpg`. -/
def fsLink : FileSystem :=
  { dirFiles := ["link.jpg"],
    isLink := fun p => p == "/d/link.jpg",
    realpath := fun p => if p == "/d/link.jpg" then "/e/target.jpg" else p,
    isfile := fun p => p == "/d/link.jpg" || p == "/e/target.jpg" }

/-- The registry entry the initial scan of `/d` creates for the symlink:
`file_path` is the resolved target, `label` the basename of the link. -/
def fpoLink : FPO := { fid := 0, file_path := "/e/target.jpg", label := "link.jpg" }

/-- The widget state after the initial scan of `/d` under `fsLink`. -/
def wLink : Widget :=
  { curr_file_paths := [fpoLink], primary_sel := none, secondary_sel := none, nextId := 1 }

/-- A plugin module defining its entry-point class. -/
def modGood1 : PluginModule :=
  { mid := 1, fileName := "CalculateMSE", attrs := ["CalculateMSE"],
    identifier := "Calculate MSE", constructOk := true, startOk := true }

/-- A plugin module that does NOT define a construct named after its file. -/
def modNoEntry : PluginModule :=
  { mid := 2, fileName := "BrokenPlugin", attrs := [],
    identifier := "Broken", constructOk := true, startOk := true }

/-- A second well-formed plugin module, listed after `modNoEntry`. -/
def modGood2 : PluginModule :=
  { mid := 3, fileName := "SelectionViewer", attrs := ["SelectionViewer"],
    identifier := "Selection Viewer", constructOk := true, startOk := true }

/-- Candidate A: loads, constructs and starts fine. -/
def modCexA : PluginModule :=
  { mid := 1, fileName := "PluginA", attrs := ["PluginA"], identifier := "Tool",
    constructOk := true, startOk := true }

/-- Candidate B: its constructor raises (caught per-candidate). -/
def modCexBad : PluginModule :=
  { mid := 2, fileName := "PluginB", attrs := ["PluginB"], identifier := "Tool",
    constructOk := false, startOk := true }

/-- Candidate C: loads, constructs and starts fine; same identifier as A. -/
def modCexC : PluginModule :=
  { mid := 3, fileName := "PluginC", attrs := ["PluginC"], identifier := "Tool",
    constructOk := true, startOk := true }

/-- An instance whose `start()` raises. -/
def instFailStart : PluginInstance :=
  { pid := 1, identifier := "P1", plugins := none, started := false, startOk := false }

/-- An instance whose `start()` returns normally. -/
def instOkStart : PluginInstance :=
  { pid := 2, identifier := "P2", plugins := none, started := false, startOk := true }

theorem selDistinct_of_secondary_none (w : Widget) (h : w.secondary_sel = none) :
    selDistinct w = true := by
  cases hp : w.primary_sel <;> simp [selDistinct, h, hp]

theorem selDistinct_of_primary_none (w : Widget) (h : w.primary_sel = none) :
    selDistinct w = true := by
  cases hs : w.secondary_sel <;> simp [selDistinct, h, hs]

theorem selDistinct_install_primary (w : Widget) (f : FPO) :
    selDistinct { clearSecondaryIfSame w (some f) with primary_sel := some f } = true := by
  unfold clearSecondaryIfSame
  cases hs : w.secondary_sel with
  | none => simp [hs, sameRef, selDistinct]
  | some g =>
      by_cases hg : f.fid = g.fid
      · simp [hs, hg, sameRef, selDistinct]
      · simp [hs, hg, sameRef, selDistinct, bne_iff_ne]

theorem selDistinct_install_secondary (w : Widget) (f : FPO) :
    selDistinct { clearPrimaryIfSame w (some f) with secondary_sel := some f } = true := by
  unfold clearPrimaryIfSame
  cases hp : w.primary_sel with
  | none => simp [hp, sameRef, selDistinct]
  | some g =>
      by_cases hg : f.fid = g.fid
      · simp [hp, hg, sameRef, selDistinct]
      · simp [hp, hg, sameRef, selDistinct, bne_iff_ne]
        omega

theorem selDistinct_clearSecondary_none (w : Widget) (h : selDistinct w = true) :
    selDistinct (clearSecondaryIfSame w none) = true := by
  unfold clearSecondaryIfSame
  by_cases h2 : sameRef none w.secondary_sel = true
  · rw [if_pos h2]
    exact selDistinct_of_secondary_none _ rfl
  · rw [if_neg h2]
    exact h

theorem selDistinct_clearPrimary_none (w : Widget) (h : selDistinct w = true) :
    selDistinct (clearPrimaryIfSame w none) = true := by
  unfold clearPrimaryIfSame
  by_cases h2 : sameRef none w.primary_sel = true
  · rw [if_pos h2]
    exact selDistinct_of_primary_none _ rfl
  · rw [if_neg h2]
    exact h

theorem selDistinct_set_primary_fpo (w : Widget) (s : FPO) (b : Bool)
    (h : selDistinct w = true) :
    selDistinct (set_primary_selection_fpo w s b).state = true := by
  unfold set_primary_selection_fpo
  by_cases h1 : sameRef (some s) w.primary_sel = true
  · rw [if_pos h1]
    exact h
  · rw [if_neg h1]
    exact selDistinct_install_primary w s

theorem selDistinct_set_secondary_fpo (w : Widget) (s : FPO) (b : Bool)
    (h : selDistinct w = true) :
    selDistinct (set_secondary_selection_fpo w s b).state = true := by
  unfold set_secondary_selection_fpo
  by_cases h1 : sameRef (some s) w.secondary_sel = true
  · rw [if_pos h1]
    exact h
  · rw [if_neg h1]
    exact selDistinct_install_secondary w s

theorem selDistinct_set_primary_str (fs : FileSystem) (w : Widget) (s : String) (b : Bool)
    (h : selDistinct w = true) :
    selDistinct (set_primary_selection_str fs w s b).state = true := by
  unfold set_primary_selection_str
  generalize get_fpo_from_current fs w (if fs.isfile s then basename s else s) = fpo
  by_cases h1 : sameRef fpo w.primary_sel = true
  · rw [if_pos h1]
    exact h
  · rw [if_neg h1]
    cases fpo with
    | none => exact selDistinct_clearSecondary_none w h
    | some f => exact selDistinct_install_primary w f

theorem selDistinct_set_secondary_str (fs : FileSystem) (w : Widget) (s : String) (b : Bool)
    (h : selDistinct w = true) :
    selDistinct (set_secondary_selection_str fs w s b).state = true := by
  unfold set_secondary_selection_str
  generalize get_fpo_from_current fs w (if fs.isfile s then basename s else s) = fpo
  by_cases h1 : sameRef fpo w.secondary_sel = true
  · rw [if_pos h1]
    exact h
  · rw [if_neg h1]
    cases fpo with
    | none => exact selDistinct_clearPrimary_none w h
    | some f => exact selDistinct_install_secondary w f

theorem selDistinct_applySelOp (fs : FileSystem) (w : Widget) (op : SelOp)
    (h : selDistinct w = true) : selDistinct (applySelOp fs w op).state = true := by
  cases op with
  | primaryFpo s b => exact selDistinct_set_primary_fpo w s b h
  | primaryStr s b => exact selDistinct_set_primary_str fs w s b h
  | secondaryFpo s b => exact selDistinct_set_secondary_fpo w s b h
  | secondaryStr s b => exact selDistinct_set_secondary_str fs w s b h

theorem selDistinct_applySelOps (fs : FileSystem) (w : Widget) (ops : List SelOp)
    (h : selDistinct w = true) : selDistinct (applySelOps fs w ops) = true := by
  induction ops generalizing w with
  | nil => simpa [applySelOps] using h
  | cons op rest ih =>
      have hstep := selDistinct_applySelOp fs w op h
      cases he : (applySelOp fs w op).error with
      | none => simpa [applySelOps, he] using ih _ hstep
      | some e => simpa [applySelOps, he] using hstep

/-- C1: starting from a freshly initialized widget (both slots unset, any
registry contents), after any sequence of `set_primary_selection` /
`set_secondary_selection` calls — by entry object or by path/label, with any
broadcast flags — `getPrimary()` and `getSecondary()` never return the same
entry: assigning to one slot the entry currently held by the other clears the
other slot within the same call, so the two slots are never the identical
object. -/
theorem spec2proof_C1_mutual_exclusion (fs : FileSystem) (reg : List FPO) (ops : List SelOp) :
    selDistinct (applySelOps fs (initWidget reg) ops) = true :=
  selDistinct_applySelOps fs (initWidget reg) ops (by simp [initWidget, selDistinct])

/-- C6 (code bug): a selection request for a path/label that does not
resolve to a registry entry is only half as described.  The `KeyError` of the
lookup is indeed caught (`get_fpo_from_current` logs a warning and yields
`None`), and in every case both slots keep their prior entries and no change
event fires; but `set_primary_selection` then runs on into
`fpo.change_style_primary()`, so whenever a primary selection is currently
set, the call raises an uncaught `AttributeError` instead of returning as a
caught, non-fatal condition.  First conjunct: the crash on a widget with a
primary selection; second conjunct: the silent no-op on a widget with no
primary selection. -/
theorem spec2proof_C6_unknown_selection :
    set_primary_selection_str fsPlain wPrimA "ghost.jpg" true =
      { state := wPrimA, events := [], error := some PyErr.attributeError } ∧
    set_primary_selection_str fsPlain wNoSel "ghost.jpg" true =
      { state := wNoSel, events := [], error := none } := by
  constructor <;> rfl

/-- C7: when entry `x` is the current secondary selection (in a state
satisfying the two-slot invariant), `setPrimary(x)` clears the secondary
slot, installs `x` as primary, and the emitted events are exactly one
`primarySelectionChanged` carrying the path of `x` — in particular no
`secondarySelectionChanged` fires — and no exception is raised. -/
theorem spec2proof_C7_promote_secondary (w : Widget) (x : FPO)
    (hsel : selDistinct w = true) (hsec : w.secondary_sel = some x) :
    (set_primary_selection_fpo w x true).state.secondary_sel = none ∧
    (set_primary_selection_fpo w x true).state.primary_sel = some x ∧
    (set_primary_selection_fpo w x true).events =
      [Event.primarySelectionChanged x.file_path] ∧
    (set_primary_selection_fpo w x true).error = none := by
  have h1 : ¬ sameRef (some x) w.primary_sel = true := by
    cases hp : w.primary_sel with
    | none => simp [sameRef]
    | some g =>
        simp only [selDistinct, hp, hsec] at hsel
        simp only [sameRef, beq_iff_eq]
        simp only [bne_iff_ne, ne_eq] at hsel
        omega
  unfold set_primary_selection_fpo
  rw [if_neg h1]
  unfold clearSecondaryIfSame
  rw [hsec]
  rw [if_pos (by simp [sameRef])]
  exact ⟨rfl, rfl, rfl, rfl⟩

/-- C7 witness: on the concrete widget `wSecA` (registry `[fpoA]`, secondary
`fpoA`, no primary), `setPrimary(fpoA)` empties the secondary slot, makes
`fpoA` primary and emits exactly one primary-changed event with its path. -/
theorem spec2proof_C7_witness :
    (set_primary_selection_fpo wSecA fpoA true).state.secondary_sel = none ∧
    (set_primary_selection_fpo wSecA fpoA true).state.primary_sel = some fpoA ∧
    (set_primary_selection_fpo wSecA fpoA true).events =
      [Event.primarySelectionChanged fpoA.file_path] ∧
    (set_primary_selection_fpo wSecA fpoA true).error = none :=
  spec2proof_C7_promote_secondary wSecA fpoA (by decide) (by decide)

theorem set_primary_noop (w : Widget) (x : FPO) (b : Bool)
    (h : sameRef (some x) w.primary_sel = true) :
    set_primary_selection_fpo w x b = { state := w, events := [], error := none } := by
  unfold set_primary_selection_fpo
  rw [if_pos h]

theorem set_primary_effective_primary (w : Widget) (x : FPO) (b : Bool)
    (h : sameRef (some x) w.primary_sel = false) :
    (set_primary_selection_fpo w x b).state.primary_sel = some x := by
  unfold set_primary_selection_fpo
  rw [if_neg (by simp [h])]

theorem set_primary_effective_events (w : Widget) (x : FPO)
    (h : sameRef (some x) w.primary_sel = false) :
    (set_primary_selection_fpo w x true).events =
      [Event.primarySelectionChanged x.file_path] := by
  unfold set_primary_selection_fpo
  rw [if_neg (by simp [h])]
  rfl

/-- C8 counterexample: the claim quantifies over every entry `x` and every
state; on the widget `wPrimA`, whose primary already is `fpoA`, calling
`setPrimary(fpoA)` twice emits zero primary-changed events in total, not
exactly one — both calls are no-ops. -/
theorem spec2proof_C8_counterexample :
    (set_primary_selection_fpo wPrimA fpoA true).events ++
      (set_primary_selection_fpo (set_primary_selection_fpo wPrimA fpoA true).state
        fpoA true).events = ([] : List Event) := by
  rfl

/-- C8 (amended): for every entry `x` that is NOT already the primary
selection, `setPrimary(x)` followed immediately by `setPrimary(x)` emits
exactly one primary-changed event in total; the second call is a no-op that
leaves the state unchanged and fires no event.  (If `x` already is primary,
both calls are no-ops and zero events fire.) -/
theorem spec2proof_C8_idempotent (w : Widget) (x : FPO)
    (h : sameRef (some x) w.primary_sel = false) :
    (set_primary_selection_fpo w x true).events ++
      (set_primary_selection_fpo (set_primary_selection_fpo w x true).state x true).events =
      [Event.primarySelectionChanged x.file_path] ∧
    (set_primary_selection_fpo (set_primary_selection_fpo w x true).state x true).events = [] ∧
    (set_primary_selection_fpo (set_primary_selection_fpo w x true).state x true).state =
      (set_primary_selection_fpo w x true).state := by
  have h2 : sameRef (some x) (set_primary_selection_fpo w x true).state.primary_sel = true := by
    rw [set_primary_effective_primary w x true h]
    simp [sameRef]
  have hnoop := set_primary_noop (set_primary_selection_fpo w x true).state x true h2
  refine ⟨?_, ?_, ?_⟩
  · rw [set_primary_effective_events w x h, hnoop]
    rfl
  · rw [hnoop]
  · rw [hnoop]

/-- C8 witness: on the concrete widget `wNoSel` (no primary selection) and
entry `fpoA`, the double `setPrimary(fpoA)` emits exactly the single
primary-changed event, and the second call changes nothing. -/
theorem spec2proof_C8_witness :
    (set_primary_selection_fpo wNoSel fpoA true).events ++
      (set_primary_selection_fpo (set_primary_selection_fpo wNoSel fpoA true).state
        fpoA true).events = [Event.primarySelectionChanged fpoA.file_path] ∧
    (set_primary_selection_fpo (set_primary_selection_fpo wNoSel fpoA true).state
      fpoA true).events = [] ∧
    (set_primary_selection_fpo (set_primary_selection_fpo wNoSel fpoA true).state
      fpoA true).state = (set_primary_selection_fpo wNoSel fpoA true).state :=
  spec2proof_C8_idempotent wNoSel fpoA (by decide)

/-- C9 counterexample: adding `fpoDup1` and then `fpoDup2`, two distinct
entries with the same label `a.jpg` and different resolved paths, leaves the
registry mapping the label to `fpoDup1`, the FIRST entry added — the most
recently added entry is silently discarded, so the collision is
first-write-wins, not last-write-wins. -/
theorem spec2proof_C9_counterexample :
    regLookup (add_fpo_to_view (add_fpo_to_view wEmpty fpoDup1) fpoDup2).curr_file_paths
        "a.jpg" = some fpoDup1 ∧
    fpoDup1 ≠ fpoDup2 ∧ fpoDup1.label = fpoDup2.label ∧
    fpoDup1.file_path ≠ fpoDup2.file_path := by
  exact ⟨by rfl, by decide, by rfl, by decide⟩

theorem unselectIfSelected_curr (w : Widget) (fpo : FPO) :
    (unselectIfSelected w fpo).curr_file_paths = w.curr_file_paths := by
  unfold unselectIfSelected
  by_cases h1 : sameRef (some fpo) w.primary_sel = true
  · rw [if_pos h1]
  · rw [if_neg h1]
    by_cases h2 : sameRef (some fpo) w.secondary_sel = true
    · rw [if_pos h2]
    · rw [if_neg h2]

theorem labels_nodup_add (w : Widget) (fpo : FPO)
    (hnd : (w.curr_file_paths.map (fun f => f.label)).Nodup) :
    ((add_fpo_to_view w fpo).curr_file_paths.map (fun f => f.label)).Nodup := by
  unfold add_fpo_to_view
  by_cases hl : (regLookup w.curr_file_paths fpo.label).isSome = true
  · rw [if_pos hl]
    exact hnd
  · rw [if_neg hl]
    have hnone : w.curr_file_paths.find? (fun f => f.label == fpo.label) = none := by
      cases hc : regLookup w.curr_file_paths fpo.label with
      | none => exact hc
      | some v => rw [hc] at hl; simp at hl
    have hnotmem : fpo.label ∉ w.curr_file_paths.map (fun f => f.label) := by
      intro hmem
      rcases List.mem_map.mp hmem with ⟨g, hg, hgl⟩
      have hq := List.find?_eq_none.mp hnone g hg
      simp only [hgl] at hq
      simp at hq
    simp only [List.map_append, List.map_cons, List.map_nil]
    rw [List.nodup_append]
    refine ⟨hnd, List.nodup_singleton _, ?_⟩
    intro a ha hb
    simp only [List.mem_singleton] at hb
    subst hb
    exact hnotmem ha

theorem labels_nodup_remove (w : Widget) (fpo : FPO)
    (hnd : (w.curr_file_paths.map (fun f => f.label)).Nodup) :
    ((remove_fpo_from_view w fpo).curr_file_paths.map (fun f => f.label)).Nodup := by
  unfold remove_fpo_from_view
  by_cases hl : (regLookup w.curr_file_paths fpo.label).isSome = true
  · rw [if_pos hl]
    show (((unselectIfSelected w fpo).curr_file_paths.eraseP
        (fun f => f.label == fpo.label)).map (fun f => f.label)).Nodup
    have hnd2 : ((unselectIfSelected w fpo).curr_file_paths.map (fun f => f.label)).Nodup := by
      rw [unselectIfSelected_curr]
      exact hnd
    exact List.Nodup.sublist
      (List.Sublist.map (fun f : FPO => f.label)
        (List.eraseP_sublist (unselectIfSelected w fpo).curr_file_paths)) hnd2
  · rw [if_neg hl]
    exact hnd

/-- C9 (amended): labels are unique within the registry at every instant —
both registry mutators preserve key uniqueness — but a label collision
resolves FIRST-write-wins, not last-write-wins: adding an entry whose label
is already a key leaves the registry (and the whole widget) unchanged, so
the label keeps mapping to the earliest-added entry and the most recently
added entry is silently discarded. -/
theorem spec2proof_C9_label_unique_first_wins (w : Widget) (fpo : FPO)
    (hnd : (w.curr_file_paths.map (fun f => f.label)).Nodup) :
    ((regLookup w.curr_file_paths fpo.label).isSome = true → add_fpo_to_view w fpo = w) ∧
    ((add_fpo_to_view w fpo).curr_file_paths.map (fun f => f.label)).Nodup ∧
    ∀ g : FPO, ((remove_fpo_from_view w g).curr_file_paths.map (fun f => f.label)).Nodup := by
  refine ⟨?_, labels_nodup_add w fpo hnd, fun g => labels_nodup_remove w g hnd⟩
  intro h
  unfold add_fpo_to_view
  rw [if_pos h]

/-- C9 witness: on the concrete registry `[fpoDup1]`, adding the colliding
entry `fpoDup2` changes nothing, label uniqueness is preserved by the add,
and removing `fpoDup1` also preserves it. -/
theorem spec2proof_C9_witness :
    add_fpo_to_view wDup1 fpoDup2 = wDup1 ∧
    ((add_fpo_to_view wDup1 fpoDup2).curr_file_paths.map (fun f => f.label)).Nodup ∧
    ((remove_fpo_from_view wDup1 fpoDup1).curr_file_paths.map (fun f => f.label)).Nodup := by
  have h := spec2proof_C9_label_unique_first_wins wDup1 fpoDup2 (by decide)
  exact ⟨h.1 (by decide), h.2.1, h.2.2 fpoDup1⟩

/-- C10: when reconcile removes a file whose registry entry is the current
primary (resp. secondary) selection, `_file_removed` clears exactly that
slot, leaves the other slot untouched, raises nothing, and emits exactly one
`fileRemoved` event — in particular no `primarySelectionChanged` or
`secondarySelectionChanged` fires for the clearing. -/
theorem spec2proof_C10_removal_clears_silently (w : Widget) (file : String) (fpo : FPO)
    (hlook : regLookup w.curr_file_paths (basename file) = some fpo) :
    (file_removed w file).error = none ∧
    (file_removed w file).events = [Event.fileRemoved file] ∧
    (sameRef (some fpo) w.primary_sel = true →
      (file_removed w file).state.primary_sel = none ∧
      (file_removed w file).state.secondary_sel = w.secondary_sel) ∧
    (sameRef (some fpo) w.primary_sel = false →
      sameRef (some fpo) w.secondary_sel = true →
      (file_removed w file).state.secondary_sel = none ∧
      (file_removed w file).state.primary_sel = w.primary_sel) := by
  have hfr : file_removed w file =
      { state := remove_fpo_from_view w fpo,
        events := [Event.fileRemoved file], error := none } := by
    unfold file_removed
    rw [hlook]
  have hfind : w.curr_file_paths.find? (fun f => f.label == basename file) = some fpo := hlook
  have hlabel : fpo.label = basename file := by
    have hq := List.find?_some hfind
    simpa using hq
  have hguard : (regLookup w.curr_file_paths fpo.label).isSome = true := by
    rw [hlabel, hlook]
    rfl
  refine ⟨by rw [hfr], by rw [hfr], ?_, ?_⟩
  · intro hp
    rw [hfr]
    unfold remove_fpo_from_view
    rw [if_pos hguard]
    unfold unselectIfSelected
    rw [if_pos hp]
    exact ⟨rfl, rfl⟩
  · intro hp hs
    rw [hfr]
    unfold remove_fpo_from_view
    rw [if_pos hguard]
    unfold unselectIfSelected
    rw [if_neg (by simp [hp]), if_pos hs]
    exact ⟨rfl, rfl⟩

/-- C10 witness: on the concrete widget `wPrimA`, whose primary selection is
the entry for `/watched/a.jpg`, removing that file clears the primary slot,
leaves the secondary slot untouched and emits only the `fileRemoved` event. -/
theorem spec2proof_C10_witness :
    (file_removed wPrimA "/watched/a.jpg").error = none ∧
    (file_removed wPrimA "/watched/a.jpg").events = [Event.fileRemoved "/watched/a.jpg"] ∧
    (file_removed wPrimA "/watched/a.jpg").state.primary_sel = none ∧
    (file_removed wPrimA "/watched/a.jpg").state.secondary_sel = wPrimA.secondary_sel := by
  have h := spec2proof_C10_removal_clears_silently wPrimA "/watched/a.jpg" fpoA (by rfl)
  exact ⟨h.1, h.2.1, (h.2.2.1 (by decide)).1, (h.2.2.1 (by decide)).2⟩

/-- C5 (code bug): `update_file` does not compare both sides of the diff by
resolved paths.  The registry side carries resolved paths (symlinks are
dereferenced at entry creation, witnessed by the first conjunct), but the
scan side uses the raw joined paths, so with the watched directory `/d`
containing only the unchanged symlink `link.jpg → /e/target.jpg` (registry
entry `fpoLink`), a reconcile pass that should compute `added = removed = ∅`
instead computes `added = ["/d/link.jpg"]` and `removed = ["/e/target.jpg"]`:
it emits a spurious `fileAdded` for the link (the registry itself is
unchanged — the label is already a key), and then crashes with an uncaught
`KeyError` because `_file_removed` looks up `basename("/e/target.jpg") =
"target.jpg"`, which is not a registry key.  Consequently the
remove-then-add treatment of a retargeted symlink claimed by the spec cannot
occur either. -/
theorem spec2proof_C5_symlink_reconcile :
    FPO.make fsLink 0 "/d/link.jpg" = Except.ok fpoLink ∧
    update_file fsLink wLink "/d" =
      { state := { wLink with nextId := 2 },
        events := [Event.fileAdded "/d/link.jpg"],
        error := some PyErr.keyError } := by
  constructor <;> rfl

/-- C4 (code bug): `instantiate_plugins` calls `get_class_name` OUTSIDE its
try/except, so the `AttributeError` raised for a module that does not define
a construct named after its base file name is NOT caught: on the candidate
list `[modGood1, modNoEntry, modGood2]` the loop aborts at `modNoEntry` with
the uncaught exception, only `modGood1` has been instantiated, and
`modGood2` is never instantiated — contradicting the claim (and the
method's own docstring, "handling any errors") that the failure is caught
per candidate and all other candidates proceed unaffected. -/
theorem spec2proof_C4_missing_entry_uncaught :
    instantiate_plugins [modGood1, modNoEntry, modGood2] =
      ([mkInstance modGood1], some PyErr.attributeError) := by
  rfl

theorem instantiate_plugins_all_entry (mods : List PluginModule)
    (h : ∀ m ∈ mods, m.attrs.contains m.fileName = true) :
    instantiate_plugins mods =
      ((mods.filter (fun m => m.constructOk)).map mkInstance, none) := by
  induction mods with
  | nil => rfl
  | cons m rest ih =>
      have hm : get_class_name m = Except.ok m.fileName := by
        unfold get_class_name
        rw [if_pos (h m (by simp))]
      have hrest := ih (fun q hq => h q (by simp [hq]))
      unfold instantiate_plugins
      rw [hm]
      by_cases hc : m.constructOk
      · simp [hc, hrest, List.filter_cons]
      · simp [hc, hrest, List.filter_cons]

theorem start_loop_all_ok (loaded l : List PluginInstance)
    (h : ∀ p ∈ l, p.startOk = true) :
    start_loop loaded l =
      (l.map (startedInstance loaded), interleavedTrace loaded l, none) := by
  induction l with
  | nil => rfl
  | cons p rest ih =>
      have hp : p.startOk = true := h p (by simp)
      have hrest := ih (fun q hq => h q (by simp [hq]))
      unfold start_loop
      rw [if_pos hp]
      simp [hrest, startedInstance, interleavedTrace]

theorem start_loop_fail (loaded pre post : List PluginInstance) (bad : PluginInstance)
    (hpre : ∀ p ∈ pre, p.startOk = true) (hbad : bad.startOk = false) :
    start_loop loaded (pre ++ bad :: post) =
      (pre.map (startedInstance loaded) ++
         ({ bad with plugins := some (siblings loaded bad) } :: post),
       interleavedTrace loaded pre ++
         [StartEv.assign bad.pid (siblings loaded bad), StartEv.startCall bad.pid],
       some PyErr.startError) := by
  induction pre with
  | nil =>
      simp only [List.nil_append, List.map_nil]
      unfold start_loop
      rw [if_neg (by simp [hbad])]
      simp [interleavedTrace]
  | cons p rest ih =>
      have hp : p.startOk = true := hpre p (by simp)
      have hrest := ih (fun q hq => hpre q (by simp [hq]))
      simp only [List.cons_append]
      unfold start_loop
      rw [if_pos hp]
      simp [hrest, startedInstance, interleavedTrace]

theorem siblings_not_self (loaded : List PluginInstance) (p : PluginInstance) :
    p.pid ∉ siblings loaded p := by
  unfold siblings
  intro hmem
  rcases List.mem_map.mp hmem with ⟨q, hq, hqp⟩
  rcases List.mem_filter.mp hq with ⟨_, hq2⟩
  rw [hqp] at hq2
  simp at hq2

theorem siblings_mem (loaded : List PluginInstance) (p q : PluginInstance)
    (hq : q ∈ loaded) (hne : q.pid ≠ p.pid) : q.pid ∈ siblings loaded p := by
  unfold siblings
  exact List.mem_map.mpr ⟨q, List.mem_filter.mpr ⟨hq, by simp [hne]⟩, rfl⟩

theorem siblings_length (loaded : List PluginInstance) (p : PluginInstance)
    (hnd : (loaded.map (fun q => q.pid)).Nodup) (hp : p ∈ loaded) :
    (siblings loaded p).length + 1 = loaded.length := by
  unfold siblings
  rw [List.length_map]
  induction loaded with
  | nil => cases hp
  | cons a rest ih =>
      rw [List.map_cons, List.nodup_cons] at hnd
      by_cases ha : a.pid = p.pid
      · have hkeep : rest.filter (fun q => q.pid != p.pid) = rest := by
          apply List.filter_eq_self.mpr
          intro q hq
          simp only [bne_iff_ne, ne_eq, decide_eq_true_eq]
          intro hqq
          exact hnd.1 (List.mem_map.mpr ⟨q, hq, by rw [ha]; exact hqq⟩)
        rw [List.filter_cons]
        simp only [ha, bne_self_eq_false, Bool.false_eq_true, if_false, cond_false]
        simp [hkeep]
      · have hp2 : p ∈ rest := by
          rcases List.mem_cons.mp hp with h | h
          · exact absurd (congrArg (fun r => r.pid) h).symm ha
          · exact h
        have ihr := ih hnd.2 hp2
        rw [List.filter_cons]
        have hcond : (a.pid != p.pid) = true := by simp [ha]
        simp only [hcond, if_true, cond_true, List.length_cons]
        omega

theorem loaded_pids_nodup (mods : List PluginModule)
    (hnd : (mods.map (fun m => m.mid)).Nodup) :
    (((mods.filter (fun m => m.constructOk)).map mkInstance).map (fun p => p.pid)).Nodup := by
  have hmap : ((mods.filter (fun m => m.constructOk)).map mkInstance).map (fun p => p.pid) =
      (mods.filter (fun m => m.constructOk)).map (fun m => m.mid) := by
    simp [List.map_map, mkInstance, Function.comp]
  rw [hmap]
  exact List.Nodup.sublist
    (List.Sublist.map (fun m : PluginModule => m.mid) (List.filter_sublist mods)) hnd

theorem startCall_mem_interleaved (loaded l : List PluginInstance) (x : Nat) :
    StartEv.startCall x ∈ interleavedTrace loaded l ↔ x ∈ l.map (fun p => p.pid) := by
  unfold interleavedTrace
  simp [List.mem_flatMap, eq_comm]

/-- C2 (amended): given N plugin candidates with distinct instance
identities, all defining their entry points and all starting cleanly, of
which exactly one fails to construct, the host ends with exactly N−1 started
instances (no exception anywhere); each instance's `plugins` list is
assigned — immediately before that instance's own `start()` call, as the
trace equation shows: the pass interleaves assignment and start per instance
rather than assigning all sibling lists before the first `start()` — as all
other successfully instantiated instances, excluding itself by object
identity (not by identifier equality), so each sibling list has N−2
members. -/
theorem spec2proof_C2_one_failed_constructor (pre post : List PluginModule) (bad : PluginModule)
    (hattrs : ∀ m ∈ pre ++ bad :: post, m.attrs.contains m.fileName = true)
    (hmid : ((pre ++ bad :: post).map (fun m => m.mid)).Nodup)
    (hstart : ∀ m ∈ pre ++ bad :: post, m.startOk = true)
    (hpre : ∀ m ∈ pre, m.constructOk = true)
    (hpost : ∀ m ∈ post, m.constructOk = true)
    (hbad : bad.constructOk = false) :
    (instantiate_plugins (pre ++ bad :: post)).2 = none ∧
    (instantiate_plugins (pre ++ bad :: post)).1.length + 1 = (pre ++ bad :: post).length ∧
    (start_plugins (instantiate_plugins (pre ++ bad :: post)).1).2.2 = none ∧
    (start_plugins (instantiate_plugins (pre ++ bad :: post)).1).1 =
      (instantiate_plugins (pre ++ bad :: post)).1.map
        (startedInstance (instantiate_plugins (pre ++ bad :: post)).1) ∧
    (start_plugins (instantiate_plugins (pre ++ bad :: post)).1).2.1 =
      interleavedTrace (instantiate_plugins (pre ++ bad :: post)).1
        (instantiate_plugins (pre ++ bad :: post)).1 ∧
    ∀ p ∈ (instantiate_plugins (pre ++ bad :: post)).1,
      (siblings (instantiate_plugins (pre ++ bad :: post)).1 p).length + 2 =
        (pre ++ bad :: post).length ∧
      p.pid ∉ siblings (instantiate_plugins (pre ++ bad :: post)).1 p ∧
      ∀ q ∈ (instantiate_plugins (pre ++ bad :: post)).1, q.pid ≠ p.pid →
        q.pid ∈ siblings (instantiate_plugins (pre ++ bad :: post)).1 p := by
  have hinst := instantiate_plugins_all_entry (pre ++ bad :: post) hattrs
  have hfilter : (pre ++ bad :: post).filter (fun m => m.constructOk) = pre ++ post := by
    rw [List.filter_append, List.filter_cons]
    simp only [hbad, Bool.false_eq_true, if_false, cond_false]
    rw [List.filter_eq_self.mpr hpre, List.filter_eq_self.mpr hpost]
  have h1 : (instantiate_plugins (pre ++ bad :: post)).1 = (pre ++ post).map mkInstance := by
    rw [hinst, hfilter]
  have h2 : (instantiate_plugins (pre ++ bad :: post)).2 = none := by rw [hinst]
  have hstartok : ∀ p ∈ (pre ++ post).map mkInstance, p.startOk = true := by
    intro p hp
    rcases List.mem_map.mp hp with ⟨m, hm, rfl⟩
    have hmm : m ∈ pre ++ bad :: post := by
      rcases List.mem_append.mp hm with hh | hh
      · exact List.mem_append.mpr (Or.inl hh)
      · exact List.mem_append.mpr (Or.inr (List.mem_cons_of_mem _ hh))
    simpa [mkInstance] using hstart m hmm
  have hsl := start_loop_all_ok ((pre ++ post).map mkInstance)
    ((pre ++ post).map mkInstance) hstartok
  have hlen : (instantiate_plugins (pre ++ bad :: post)).1.length + 1 =
      (pre ++ bad :: post).length := by
    rw [h1]
    simp [List.length_append, List.length_map, List.length_cons]
    omega
  have hndL : ((instantiate_plugins (pre ++ bad :: post)).1.map (fun p => p.pid)).Nodup := by
    rw [hinst]
    exact loaded_pids_nodup (pre ++ bad :: post) hmid
  refine ⟨h2, hlen, ?_, ?_, ?_, ?_⟩
  · rw [h1]
    simp only [start_plugins, hsl]
  · rw [h1]
    simp only [start_plugins, hsl]
  · rw [h1]
    simp only [start_plugins, hsl]
  · intro p hp
    refine ⟨?_, siblings_not_self _ p, fun q hq hne => siblings_mem _ p q hq hne⟩
    have hs := siblings_length (instantiate_plugins (pre ++ bad :: post)).1 p hndL hp
    omega

/-- C2 counterexample: with the three candidates `modCexA`, `modCexBad`
(constructor fails), `modCexC`, the host starts exactly 2 instances, but the
startup trace is interleaved — instance 1's `start()` is called before
instance 3's sibling list is assigned — refuting the claim that every
started instance's plugins list is assigned before ANY instance's `start()`
is invoked. -/
theorem spec2proof_C2_counterexample :
    (start_plugins (instantiate_plugins [modCexA, modCexBad, modCexC]).1).2.1 =
      [StartEv.assign 1 [3], StartEv.startCall 1, StartEv.assign 3 [1], StartEv.startCall 3] ∧
    noAssignAfterStart
      (start_plugins (instantiate_plugins [modCexA, modCexBad, modCexC]).1).2.1 = false := by
  exact ⟨by rfl, by rfl⟩

/-- C2 witness: the amended theorem evaluated on the three concrete
candidates `[modCexA] ++ modCexBad :: [modCexC]` — all identifiers equal
(`Tool`), so the sibling exclusion visibly works by identity, not by
identifier. -/
theorem spec2proof_C2_witness :
    (instantiate_plugins ([modCexA] ++ modCexBad :: [modCexC])).2 = none ∧
    (instantiate_plugins ([modCexA] ++ modCexBad :: [modCexC])).1.length + 1 =
      ([modCexA] ++ modCexBad :: [modCexC]).length ∧
    (start_plugins (instantiate_plugins ([modCexA] ++ modCexBad :: [modCexC])).1).2.2 = none ∧
    (start_plugins (instantiate_plugins ([modCexA] ++ modCexBad :: [modCexC])).1).1 =
      (instantiate_plugins ([modCexA] ++ modCexBad :: [modCexC])).1.map
        (startedInstance (instantiate_plugins ([modCexA] ++ modCexBad :: [modCexC])).1) ∧
    (start_plugins (instantiate_plugins ([modCexA] ++ modCexBad :: [modCexC])).1).2.1 =
      interleavedTrace (instantiate_plugins ([modCexA] ++ modCexBad :: [modCexC])).1
        (instantiate_plugins ([modCexA] ++ modCexBad :: [modCexC])).1 ∧
    ∀ p ∈ (instantiate_plugins ([modCexA] ++ modCexBad :: [modCexC])).1,
      (siblings (instantiate_plugins ([modCexA] ++ modCexBad :: [modCexC])).1 p).length + 2 =
        ([modCexA] ++ modCexBad :: [modCexC]).length ∧
      p.pid ∉ siblings (instantiate_plugins ([modCexA] ++ modCexBad :: [modCexC])).1 p ∧
      ∀ q ∈ (instantiate_plugins ([modCexA] ++ modCexBad :: [modCexC])).1, q.pid ≠ p.pid →
        q.pid ∈ siblings (instantiate_plugins ([modCexA] ++ modCexBad :: [modCexC])).1 p :=
  spec2proof_C2_one_failed_constructor [modCexA] [modCexC] modCexBad
    (by decide) (by decide) (by decide) (by decide) (by decide) (by decide)

/-- C3 (amended): `start_plugins` has no exception handling: when the
instance `bad` in the middle of the loaded list raises in `start()`, the
exception propagates uncaught, the instances before `bad` have been started,
`bad` got its sibling list but did not complete `start()`, and the instances
after `bad` are left untouched — their `start()` is never called (no
`startCall` for them in the trace) and their sibling lists are never
assigned. -/
theorem spec2proof_C3_start_not_isolated (pre post : List PluginInstance) (bad : PluginInstance)
    (hpre : ∀ p ∈ pre, p.startOk = true) (hbad : bad.startOk = false)
    (hnd : ((pre ++ bad :: post).map (fun p => p.pid)).Nodup) :
    (start_plugins (pre ++ bad :: post)).2.2 = some PyErr.startError ∧
    (start_plugins (pre ++ bad :: post)).1 =
      pre.map (startedInstance (pre ++ bad :: post)) ++
        ({ bad with plugins := some (siblings (pre ++ bad :: post) bad) } :: post) ∧
    (start_plugins (pre ++ bad :: post)).2.1 =
      interleavedTrace (pre ++ bad :: post) pre ++
        [StartEv.assign bad.pid (siblings (pre ++ bad :: post) bad),
         StartEv.startCall bad.pid] ∧
    ∀ q ∈ post, StartEv.startCall q.pid ∉ (start_plugins (pre ++ bad :: post)).2.1 := by
  have hsl := start_loop_fail (pre ++ bad :: post) pre post bad hpre hbad
  rw [List.map_append, List.map_cons, List.nodup_append] at hnd
  rcases hnd with ⟨hnd1, hnd2, hdisj⟩
  rw [List.nodup_cons] at hnd2
  refine ⟨?_, ?_, ?_, ?_⟩
  · simp only [start_plugins, hsl]
  · simp only [start_plugins, hsl]
  · simp only [start_plugins, hsl]
  · intro q hq
    simp only [start_plugins, hsl]
    intro hmem
    rcases List.mem_append.mp hmem with hmem | hmem
    · have hqpid := (startCall_mem_interleaved _ pre q.pid).mp hmem
      exact hdisj hqpid (List.mem_cons_of_mem _ (List.mem_map.mpr ⟨q, hq, rfl⟩))
    · simp only [List.mem_cons, List.mem_singleton] at hmem
      rcases hmem with hmem | hmem | hmem
      · cases hmem
      · have : q.pid = bad.pid := by injection hmem
        exact hnd2.1 (List.mem_map.mpr ⟨q, hq, this⟩)
      · cases hmem

/-- C3 counterexample: two loaded instances; the first raises in `start()`.
The startup pass aborts with the uncaught exception: the second instance's
`start()` is never called and it is returned completely untouched (sibling
list still unassigned, not started) — there is no isolation of the failure,
and in fact an aggregate abort of the startup pass. -/
theorem spec2proof_C3_counterexample :
    (start_plugins [instFailStart, instOkStart]).2.2 = some PyErr.startError ∧
    StartEv.startCall 2 ∉ (start_plugins [instFailStart, instOkStart]).2.1 ∧
    (start_plugins [instFailStart, instOkStart]).1 =
      [{ instFailStart with plugins := some [2] }, instOkStart] := by
  refine ⟨by rfl, by decide, by rfl⟩

/-- C3 witness: the amended theorem evaluated on the concrete list
`[] ++ instFailStart :: [instOkStart]`: the pass errors out, the trace holds
only the failing instance's assignment and start call, and no `startCall`
for the second instance appears. -/
theorem spec2proof_C3_witness :
    (start_plugins ([] ++ instFailStart :: [instOkStart])).2.2 = some PyErr.startError ∧
    (start_plugins ([] ++ instFailStart :: [instOkStart])).1 =
      List.map (startedInstance ([] ++ instFailStart :: [instOkStart])) [] ++
        ({ instFailStart with
            plugins := some (siblings ([] ++ instFailStart :: [instOkStart]) instFailStart) } ::
          [instOkStart]) ∧
    (start_plugins ([] ++ instFailStart :: [instOkStart])).2.1 =
      interleavedTrace ([] ++ instFailStart :: [instOkStart]) [] ++
        [StartEv.assign instFailStart.pid
            (siblings ([] ++ instFailStart :: [instOkStart]) instFailStart),
         StartEv.startCall instFailStart.pid] ∧
    ∀ q ∈ [instOkStart], StartEv.startCall q.pid ∉
      (start_plugins ([] ++ instFailStart :: [instOkStart])).2.1 :=
  spec2proof_C3_start_not_isolated [] [instOkStart] instFailStart
    (by decide) (by decide) (by decide)

end OPT
